import Mathlib

/-!
Shallow embedding of the result-ts library (a Kotlin-style Result type for
TypeScript) and proofs of its specified properties.

Source layout:
  - src/Failure.ts            : internal Failure marker class and createFailure
  - src/Result.ts (part_000)  : the Result class with its combinators
  - src/utils.ts              : the free function runCatching
  - part_000 (global augment) : Function.prototype.runCatching

Modelling choices:
  - JavaScript runtime values are modelled by the inductive type JSVal.
    An instance of the internal Failure class is the constructor
    JSVal.failureInst wrapping the captured exception value; every other
    constructor is a non-Failure value.  Error objects are modelled as
    generic heap objects JSVal.object identified by a reference id, so
    reference equality of errors is equality of ids.
  - The instanceof Failure test of the source is the match on
    JSVal.failureInst; JavaScript truthiness, used by the recover and
    recoverCatching branches of the source, is JSVal.truthy.
  - A Result instance is a structure holding its single payload field,
    named value as in the source.
  - Caller-supplied callbacks may throw, so they are functions into
    Except JSVal A: Except.error e models throwing e, Except.ok models a
    normal return.  A method of the source that can throw returns
    Except JSVal A; a method that is total returns the plain type.
-/

/-- JavaScript runtime values, as far as the library observes them:
null, undefined, booleans, numbers, strings, generic heap objects
(including Error objects) identified by reference, and instances of the
internal Failure marker class wrapping a captured exception value. -/
inductive JSVal : Type where
  | null : JSVal
  | undefined : JSVal
  | boolean : Bool → JSVal
  | number : Int → JSVal
  | string : String → JSVal
  | object : Nat → JSVal
  | failureInst : JSVal → JSVal
deriving DecidableEq, Repr

/-- JavaScript truthiness of a value: null, undefined, false, 0 and the
empty string are falsy; every object (including a Failure instance) is
truthy. -/
def JSVal.truthy : JSVal → Bool
  | .null => false
  | .undefined => false
  | .boolean b => b
  | .number n => n != 0
  | .string s => s != ""
  | .object _ => true
  | .failureInst _ => true

/-- From src/Failure.ts: createFailure wraps an exception in a new
instance of the internal Failure marker class. -/
def createFailure (exception : JSVal) : JSVal :=
  JSVal.failureInst exception

/-- From src/Failure.ts: Failure.equals, true iff the other value is a
Failure instance wrapping the identical exception. -/
def failureEquals (this other : JSVal) : Bool :=
  match this, other with
  | .failureInst e, .failureInst e2 => e == e2
  | _, _ => false

/-- The Result class of src/Result.ts: a single private payload field
named value, holding either the success value or a Failure instance. -/
structure Result : Type where
  value : JSVal
deriving DecidableEq, Repr

/-- Static factory Result.success: wraps the given value directly as the
payload. -/
def Result.success (value : JSVal) : Result :=
  ⟨value⟩

/-- Static factory Result.failure: wraps the exception inside a Failure
marker (via createFailure) as the payload. -/
def Result.failure (exception : JSVal) : Result :=
  ⟨createFailure exception⟩

/-- Result.isFailure: true iff the payload is an instance of Failure. -/
def Result.isFailure (r : Result) : Bool :=
  match r.value with
  | .failureInst _ => true
  | _ => false

/-- Result.isSuccess: the negation of isFailure. -/
def Result.isSuccess (r : Result) : Bool :=
  !r.isFailure

/-- Result.getOrNull: the payload if this is a success, else null. -/
def Result.getOrNull (r : Result) : JSVal :=
  if r.isSuccess then r.value else JSVal.null

/-- Result.exceptionOrNull: the wrapped exception if the payload is a
Failure instance, else null. -/
def Result.exceptionOrNull (r : Result) : JSVal :=
  match r.value with
  | .failureInst e => e
  | _ => JSVal.null

/-- Result.throwOnFailure: throws the wrapped exception if the payload is
a Failure instance, else returns normally. -/
def Result.throwOnFailure (r : Result) : Except JSVal Unit :=
  match r.value with
  | .failureInst e => Except.error e
  | _ => Except.ok ()

/-- Result.getOrThrow: throwOnFailure, then return the payload. -/
def Result.getOrThrow (r : Result) : Except JSVal JSVal := do
  r.throwOnFailure
  pure r.value

/-- Result.getOrElse: the payload on success, otherwise the result of the
onFailure callback applied to exceptionOrNull; callback throws propagate. -/
def Result.getOrElse (r : Result) (onFailure : JSVal → Except JSVal JSVal) :
    Except JSVal JSVal :=
  if r.isFailure then onFailure r.exceptionOrNull
  else Except.ok r.value

/-- Result.getOrDefault: the payload on success, else the default. -/
def Result.getOrDefault (r : Result) (defaultValue : JSVal) : JSVal :=
  if r.isFailure then defaultValue else r.value

/-- Result.fold: applies the matching one of the two callbacks; callback
throws propagate to the caller. -/
def Result.fold (r : Result) (onSuccess onFailure : JSVal → Except JSVal JSVal) :
    Except JSVal JSVal :=
  if r.isSuccess then onSuccess r.value else onFailure r.exceptionOrNull

/-- The free function runCatching of src/utils.ts: invokes the callback,
wrapping a normal return as a success and a thrown error as a failure. -/
def runCatching (callback : Unit → Except JSVal JSVal) : Result :=
  match callback () with
  | Except.ok v => Result.success v
  | Except.error e => Result.failure e

/-- The receiver-bound Function.prototype.runCatching of part_000: invokes
the receiver, wrapping a normal return as a success and a thrown error as
a failure. -/
def FunctionPrototype.runCatching (receiver : Unit → Except JSVal JSVal) : Result :=
  match receiver () with
  | Except.ok v => Result.success v
  | Except.error e => Result.failure e

/-- Result.map: on success, applies the transform (throws propagate) and
wraps the result as a success; otherwise a new failure with the value of
exceptionOrNull. -/
def Result.map (r : Result) (transform : JSVal → Except JSVal JSVal) :
    Except JSVal Result :=
  if r.isSuccess then do
    let v ← transform r.value
    pure (Result.success v)
  else Except.ok (Result.failure r.exceptionOrNull)

/-- Result.mapCatching: on success, runs the transform through runCatching
(a thrown error becomes a failure); otherwise a new failure with the value
of exceptionOrNull. -/
def Result.mapCatching (r : Result) (transform : JSVal → Except JSVal JSVal) :
    Result :=
  if r.isSuccess then runCatching (fun _ => transform r.value)
  else Result.failure r.exceptionOrNull

/-- Result.recover: if exceptionOrNull is truthy, applies the transform to
it (throws propagate) and wraps the result as a success; else returns the
receiver itself. -/
def Result.recover (r : Result) (transform : JSVal → Except JSVal JSVal) :
    Except JSVal Result :=
  let exception := r.exceptionOrNull
  if exception.truthy then do
    let v ← transform exception
    pure (Result.success v)
  else Except.ok r

/-- Result.recoverCatching: if exceptionOrNull is truthy, runs the
transform on it through runCatching; else returns the receiver itself. -/
def Result.recoverCatching (r : Result) (transform : JSVal → Except JSVal JSVal) :
    Result :=
  let exception := r.exceptionOrNull
  if exception.truthy then runCatching (fun _ => transform exception)
  else r

/-- Result.onFailure: performs the action on exceptionOrNull when this is
a failure (action throws propagate), then returns the receiver itself. -/
def Result.onFailure (r : Result) (action : JSVal → Except JSVal Unit) :
    Except JSVal Result :=
  if r.isFailure then do
    action r.exceptionOrNull
    pure r
  else Except.ok r

/-- Result.onSuccess: performs the action on the payload when this is a
success (action throws propagate), then returns the receiver itself. -/
def Result.onSuccess (r : Result) (action : JSVal → Except JSVal Unit) :
    Except JSVal Result :=
  if r.isSuccess then do
    action r.value
    pure r
  else Except.ok r

/-- The value v is not an instance of the internal Failure marker class. -/
def JSVal.notFailureInst (v : JSVal) : Bool :=
  match v with
  | .failureInst _ => false
  | _ => true

/-! Helper lemmas shared by the claim proofs. -/

theorem Result.isFailure_failure (e : JSVal) : (Result.failure e).isFailure = true :=
  rfl

theorem Result.exceptionOrNull_failure (e : JSVal) :
    (Result.failure e).exceptionOrNull = e :=
  rfl

theorem Result.isSuccess_failure (e : JSVal) : (Result.failure e).isSuccess = false :=
  rfl

theorem Result.isSuccess_iff (r : Result) :
    r.isSuccess = true ↔ r.value.notFailureInst = true := by
  obtain ⟨v⟩ := r
  cases v <;> simp [Result.isSuccess, Result.isFailure, JSVal.notFailureInst]

theorem Result.exceptionOrNull_of_isSuccess (r : Result)
    (h : r.isSuccess = true) : r.exceptionOrNull = JSVal.null := by
  obtain ⟨v⟩ := r
  cases v <;> simp_all [Result.isSuccess, Result.isFailure, Result.exceptionOrNull]

/-! The claims. -/

/-- Claim C1 counterexample: the claim as stated quantifies over every
value v, but at the concrete value v = Failure instance wrapping the error
object 0, the outcome built by success(v) is classified as a failure, so
the conjunction stated by the claim is false at this input. -/
theorem c1_counterexample :
    ¬ ((Result.success (JSVal.failureInst (JSVal.object 0))).isSuccess = true ∧
       (Result.success (JSVal.failureInst (JSVal.object 0))).isFailure = false ∧
       (Result.success (JSVal.failureInst (JSVal.object 0))).getOrNull
         = JSVal.failureInst (JSVal.object 0) ∧
       (Result.success (JSVal.failureInst (JSVal.object 0))).exceptionOrNull
         = JSVal.null) := by
  decide

/-- Claim C1 (amended): for every value v that is not an instance of the
internal Failure marker class, success(v) is classified as a success and
not a failure, getOrNull returns v itself, and exceptionOrNull returns
null. -/
theorem c1_success_factory (v : JSVal) (hv : v.notFailureInst = true) :
    (Result.success v).isSuccess = true ∧
    (Result.success v).isFailure = false ∧
    (Result.success v).getOrNull = v ∧
    (Result.success v).exceptionOrNull = JSVal.null := by
  cases v <;>
    simp_all [Result.success, Result.isSuccess, Result.isFailure,
      Result.getOrNull, Result.exceptionOrNull, JSVal.notFailureInst]

/-- Witness for c1_success_factory at the concrete value 7. -/
theorem c1_success_factory_witness :
    (JSVal.number 7).notFailureInst = true ∧
    ((Result.success (JSVal.number 7)).isSuccess = true ∧
     (Result.success (JSVal.number 7)).isFailure = false ∧
     (Result.success (JSVal.number 7)).getOrNull = JSVal.number 7 ∧
     (Result.success (JSVal.number 7)).exceptionOrNull = JSVal.null) :=
  ⟨by decide, c1_success_factory (JSVal.number 7) (by decide)⟩

/-- Claim C2: for every error e, a success outcome constructed with a
Failure instance as its value, success(createFailure(e)), is classified as
a failure and exceptionOrNull returns e, because classification inspects
only the runtime type of the stored payload. -/
theorem c2_marker_misclassified (e : JSVal) :
    (Result.success (createFailure e)).isFailure = true ∧
    (Result.success (createFailure e)).exceptionOrNull = e := by
  simp [Result.success, createFailure, Result.isFailure, Result.exceptionOrNull]

/-- Claim C3: the free function runCatching of utils.ts and the
receiver-bound Function.prototype.runCatching are extensionally equal,
and both wrap a normal return r of the computation as success(r) and a
thrown error e as failure(e), never letting the error propagate. -/
theorem c3_runCatching_forms (f : Unit → Except JSVal JSVal)
    (v e : JSVal) :
    FunctionPrototype.runCatching f = runCatching f ∧
    (f () = Except.ok v → runCatching f = Result.success v) ∧
    (f () = Except.error e → runCatching f = Result.failure e) := by
  refine ⟨rfl, ?_, ?_⟩ <;> intro h <;> simp [runCatching, h]

/-- Witness for c3_runCatching_forms at a normally returning computation
and at a throwing computation. -/
theorem c3_runCatching_forms_witness :
    (runCatching (fun _ => Except.ok (JSVal.number 42))
       = Result.success (JSVal.number 42)) ∧
    (runCatching (fun _ => Except.error (JSVal.object 5))
       = Result.failure (JSVal.object 5)) :=
  ⟨(c3_runCatching_forms (fun _ => Except.ok (JSVal.number 42))
      (JSVal.number 42) (JSVal.object 5)).2.1 rfl,
   (c3_runCatching_forms (fun _ => Except.error (JSVal.object 5))
      (JSVal.number 42) (JSVal.object 5)).2.2 rfl⟩

/-- Claim C4 counterexample: the claim quantifies over every value v, but
at the concrete value v = Failure instance wrapping the error object 0
and the pure transform returning 1, map does not yield
success(transform(v)): it yields a failure, because success(v) is
classified as a failure. -/
theorem c4_counterexample :
    ¬ ((Result.success (JSVal.failureInst (JSVal.object 0))).map
         (fun _ => Except.ok (JSVal.number 1))
       = Except.ok (Result.success (JSVal.number 1))) := by
  intro h
  simp [Result.map, Result.success, Result.isSuccess, Result.isFailure,
    Result.exceptionOrNull, Result.failure, createFailure] at h

/-- Claim C4 (amended): for every pure transform f (returning w normally)
and every value v that is not an instance of the internal Failure marker
class, map(f) on success(v) equals success(f(v)); and map(g) on failure(e)
is a failure carrying the very same error e, for every transform g, even
one that would throw, so g is never invoked on a failure. -/
theorem c4_map (v w e : JSVal) (f g : JSVal → Except JSVal JSVal)
    (hv : v.notFailureInst = true) (hf : f v = Except.ok w) :
    (Result.success v).map f = Except.ok (Result.success w) ∧
    (Result.failure e).map g = Except.ok (Result.failure e) := by
  constructor
  · have hs : (⟨v⟩ : Result).isSuccess = true :=
      (Result.isSuccess_iff ⟨v⟩).mpr hv
    simp [Result.map, Result.success, hs, hf]
  · simp [Result.map, Result.isSuccess_failure, Result.exceptionOrNull_failure]

/-- Witness for c4_map at v = 2, the identity transform, and a throwing
transform on the failure side. -/
theorem c4_map_witness :
    (JSVal.number 2).notFailureInst = true ∧
    ((Result.success (JSVal.number 2)).map (fun x => Except.ok x)
       = Except.ok (Result.success (JSVal.number 2)) ∧
     (Result.failure (JSVal.object 4)).map (fun x => Except.error x)
       = Except.ok (Result.failure (JSVal.object 4))) :=
  ⟨by decide,
   c4_map (JSVal.number 2) (JSVal.number 2) (JSVal.object 4)
     (fun x => Except.ok x) (fun x => Except.error x) (by decide) rfl⟩

/-- Claim C5: for every transform f that throws e2, mapCatching(f) on a
success outcome returns failure(e2) and, being total, never propagates e2
to the caller; and on failure(e) the original captured error e is carried
forward for every transform g, even one that would throw, so g is never
invoked. -/
theorem c5_mapCatching (r : Result) (e2 e : JSVal)
    (f g : JSVal → Except JSVal JSVal)
    (hs : r.isSuccess = true) (hf : f r.value = Except.error e2) :
    r.mapCatching f = Result.failure e2 ∧
    (Result.failure e).mapCatching g = Result.failure e := by
  constructor
  · simp [Result.mapCatching, hs, runCatching, hf]
  · simp [Result.mapCatching, Result.isSuccess_failure,
      Result.exceptionOrNull_failure]

/-- Witness for c5_mapCatching at the success value 1 with a transform
throwing the error object 3. -/
theorem c5_mapCatching_witness :
    (Result.success (JSVal.number 1)).isSuccess = true ∧
    ((Result.success (JSVal.number 1)).mapCatching
       (fun _ => Except.error (JSVal.object 3)) = Result.failure (JSVal.object 3) ∧
     (Result.failure (JSVal.object 9)).mapCatching (fun x => Except.error x)
       = Result.failure (JSVal.object 9)) :=
  ⟨by decide,
   c5_mapCatching (Result.success (JSVal.number 1)) (JSVal.object 3)
     (JSVal.object 9) (fun _ => Except.error (JSVal.object 3))
     (fun x => Except.error x) (by decide) rfl⟩

/-- Claim C6: for every error e (a truthy value, as every Error object is)
and transform g returning w normally, recover(g) on failure(e) equals
success(g(e)); and on every success outcome rs it returns rs itself
unchanged, for every transform g2, even one that would throw, so g2 is
never invoked on a success. -/
theorem c6_recover (e w : JSVal) (rs : Result)
    (g g2 : JSVal → Except JSVal JSVal)
    (ht : e.truthy = true) (hg : g e = Except.ok w)
    (hs : rs.isSuccess = true) :
    (Result.failure e).recover g = Except.ok (Result.success w) ∧
    rs.recover g2 = Except.ok rs := by
  constructor
  · simp [Result.recover, Result.exceptionOrNull_failure, ht, hg]
  · simp [Result.recover, Result.exceptionOrNull_of_isSuccess rs hs, JSVal.truthy]

/-- Witness for c6_recover at the error object 2 with a transform
returning 5, and the success outcome 1 with a throwing transform. -/
theorem c6_recover_witness :
    (JSVal.object 2).truthy = true ∧
    (Result.success (JSVal.number 1)).isSuccess = true ∧
    ((Result.failure (JSVal.object 2)).recover (fun _ => Except.ok (JSVal.number 5))
       = Except.ok (Result.success (JSVal.number 5)) ∧
     (Result.success (JSVal.number 1)).recover (fun x => Except.error x)
       = Except.ok (Result.success (JSVal.number 1))) :=
  ⟨by decide, by decide,
   c6_recover (JSVal.object 2) (JSVal.number 5)
     (Result.success (JSVal.number 1)) (fun _ => Except.ok (JSVal.number 5))
     (fun x => Except.error x) (by decide) rfl (by decide)⟩

/-- Claim C7: for every error e, rethrowing inside recoverCatching is the
identity on the captured error: failure(e).recoverCatching(rethrow) is a
failure whose exceptionOrNull is e itself.  This holds whether e is truthy
(the rethrown e is re-captured by runCatching) or falsy (the original
failure outcome is returned unchanged). -/
theorem c7_recoverCatching_rethrow (e : JSVal) :
    ((Result.failure e).recoverCatching (fun err => Except.error err)).isFailure
      = true ∧
    ((Result.failure e).recoverCatching (fun err => Except.error err)).exceptionOrNull
      = e := by
  by_cases h : e.truthy = true <;>
    simp [Result.recoverCatching, Result.exceptionOrNull_failure, h,
      runCatching, Result.isFailure_failure]

/-- Claim C8: getOrThrow on a success outcome returns the stored value
without throwing; on failure(e) it rethrows exactly the captured error e;
and throwOnFailure likewise returns normally on a success and throws e on
failure(e). -/
theorem c8_unwrap (r : Result) (e : JSVal) (hs : r.isSuccess = true) :
    r.getOrThrow = Except.ok r.value ∧
    r.throwOnFailure = Except.ok () ∧
    (Result.failure e).getOrThrow = Except.error e ∧
    (Result.failure e).throwOnFailure = Except.error e := by
  obtain ⟨v⟩ := r
  refine ⟨?_, ?_, rfl, rfl⟩ <;>
    cases v <;>
      first
        | rfl
        | simp_all [Result.isSuccess, Result.isFailure]

/-- Witness for c8_unwrap at the success value 3 and the captured error
object 1. -/
theorem c8_unwrap_witness :
    (Result.success (JSVal.number 3)).isSuccess = true ∧
    ((Result.success (JSVal.number 3)).getOrThrow
       = Except.ok (Result.success (JSVal.number 3)).value ∧
     (Result.success (JSVal.number 3)).throwOnFailure = Except.ok () ∧
     (Result.failure (JSVal.object 1)).getOrThrow = Except.error (JSVal.object 1) ∧
     (Result.failure (JSVal.object 1)).throwOnFailure
       = Except.error (JSVal.object 1)) :=
  ⟨by decide,
   c8_unwrap (Result.success (JSVal.number 3)) (JSVal.object 1) (by decide)⟩

/-- Claim C9: the payload of an outcome is never reassigned, so the
observable classification and extraction of an outcome never change.  In
this pure embedding that reads: onSuccess and onFailure return the very
outcome they were called on whenever the action returns normally, recover
and recoverCatching on a success outcome return the receiver itself, and
hence every observer (isSuccess, isFailure, getOrNull, exceptionOrNull)
gives the same result on the returned outcome as on the original, so
repeated calls always agree. -/
theorem c9_immutable (r r1 r2 rs : Result)
    (a b : JSVal → Except JSVal Unit) (g : JSVal → Except JSVal JSVal)
    (h1 : r.onSuccess a = Except.ok r1)
    (h2 : r.onFailure b = Except.ok r2)
    (hs : rs.isSuccess = true) :
    r1 = r ∧ r2 = r ∧
    rs.recover g = Except.ok rs ∧ rs.recoverCatching g = rs ∧
    r1.isSuccess = r.isSuccess ∧ r1.isFailure = r.isFailure ∧
    r1.getOrNull = r.getOrNull ∧ r1.exceptionOrNull = r.exceptionOrNull := by
  have e1 : r1 = r := by
    by_cases hcond : r.isSuccess = true
    · cases ha : a r.value with
      | ok u =>
          simp [Result.onSuccess, hcond, ha] at h1
          exact h1.symm
      | error eo =>
          simp [Result.onSuccess, hcond, ha] at h1
    · simp [Result.onSuccess, hcond] at h1
      exact h1.symm
  have e2 : r2 = r := by
    by_cases hcond : r.isFailure = true
    · cases hb : b r.exceptionOrNull with
      | ok u =>
          simp [Result.onFailure, hcond, hb] at h2
          exact h2.symm
      | error eo =>
          simp [Result.onFailure, hcond, hb] at h2
    · simp [Result.onFailure, hcond] at h2
      exact h2.symm
  subst e1
  subst e2
  refine ⟨rfl, rfl, ?_, ?_, rfl, rfl, rfl, rfl⟩
  · simp [Result.recover, Result.exceptionOrNull_of_isSuccess rs hs, JSVal.truthy]
  · simp [Result.recoverCatching, Result.exceptionOrNull_of_isSuccess rs hs,
      JSVal.truthy]

/-- Witness for c9_immutable: a failure outcome chained through onSuccess
(action not invoked) and onFailure (action performed, returning normally),
and a success outcome for the recover clauses. -/
theorem c9_immutable_witness :
    (Result.failure (JSVal.object 0)).onSuccess (fun _ => Except.error JSVal.null)
      = Except.ok (Result.failure (JSVal.object 0)) ∧
    (Result.failure (JSVal.object 0)).onFailure (fun _ => Except.ok ())
      = Except.ok (Result.failure (JSVal.object 0)) ∧
    (Result.success (JSVal.number 6)).isSuccess = true ∧
    (Result.failure (JSVal.object 0) = Result.failure (JSVal.object 0) ∧
     Result.failure (JSVal.object 0) = Result.failure (JSVal.object 0) ∧
     (Result.success (JSVal.number 6)).recover (fun x => Except.error x)
       = Except.ok (Result.success (JSVal.number 6)) ∧
     (Result.success (JSVal.number 6)).recoverCatching (fun x => Except.error x)
       = Result.success (JSVal.number 6) ∧
     (Result.failure (JSVal.object 0)).isSuccess
       = (Result.failure (JSVal.object 0)).isSuccess ∧
     (Result.failure (JSVal.object 0)).isFailure
       = (Result.failure (JSVal.object 0)).isFailure ∧
     (Result.failure (JSVal.object 0)).getOrNull
       = (Result.failure (JSVal.object 0)).getOrNull ∧
     (Result.failure (JSVal.object 0)).exceptionOrNull
       = (Result.failure (JSVal.object 0)).exceptionOrNull) :=
  ⟨rfl, rfl, by decide,
   c9_immutable (Result.failure (JSVal.object 0)) (Result.failure (JSVal.object 0))
     (Result.failure (JSVal.object 0)) (Result.success (JSVal.number 6))
     (fun _ => Except.error JSVal.null) (fun _ => Except.ok ())
     (fun x => Except.error x) rfl rfl (by decide)⟩

/-- Claim C10: recover and recoverCatching branch on the truthiness of the
extracted error, not on the failure classification: for every failure
outcome whose captured error e is falsy, isFailure is still true, yet both
return the original failure outcome unchanged, for every transform, even
one that would throw, so the transform is never invoked. -/
theorem c10_falsy_error (e : JSVal) (g g2 : JSVal → Except JSVal JSVal)
    (hf : e.truthy = false) :
    (Result.failure e).isFailure = true ∧
    (Result.failure e).recover g = Except.ok (Result.failure e) ∧
    (Result.failure e).recoverCatching g2 = Result.failure e := by
  refine ⟨rfl, ?_, ?_⟩ <;>
    simp [Result.recover, Result.recoverCatching,
      Result.exceptionOrNull_failure, hf]

/-- Witness for c10_falsy_error at the falsy captured error 0 with a
normally returning and a throwing transform. -/
theorem c10_falsy_error_witness :
    (JSVal.number 0).truthy = false ∧
    ((Result.failure (JSVal.number 0)).isFailure = true ∧
     (Result.failure (JSVal.number 0)).recover (fun x => Except.ok x)
       = Except.ok (Result.failure (JSVal.number 0)) ∧
     (Result.failure (JSVal.number 0)).recoverCatching (fun x => Except.error x)
       = Result.failure (JSVal.number 0)) :=
  ⟨by decide,
   c10_falsy_error (JSVal.number 0) (fun x => Except.ok x)
     (fun x => Except.error x) (by decide)⟩
